import Mathlib

/-!
Shallow embedding of `src/TempHumidityMonitor.py`, a temperature/humidity
monitor that polls a DHT11 sensor and publishes the readings to a SmartDisplay
over Modbus (minimalmodbus).

Modelling conventions:
* External calls (the two sensor property reads `sensor.temperature`,
  `sensor.humidity`, and the two `instr.write_register` calls) are opaque
  collaborators; each loop iteration runs against a `CycleEnv` that injects the
  outcome of each call (a value, or the Python exception it raises).
* Python exceptions are the inductive `Exc`: `RuntimeError` (the transient
  class raised by the adafruit_dht driver), the minimalmodbus transport errors
  (subclasses of IOError, never of RuntimeError), and any other `Exception`.
* `sys.exit()` after a usage message, and an uncaught `ValueError` from
  `int()`, are the two `ParseExit` outcomes of command-line parsing.
* The floats `0.3` and `2.0` in the source are only ever stored and compared,
  never computed with, so they are represented exactly as the rationals
  `3 / 10` and `2`.
-/

namespace TempHumidityMonitor

/-- Mode string selecting binary (RTU) framing: `minimalmodbus.MODE_RTU`. -/
def MODE_RTU : String := "rtu"

/-- Mode string selecting text (ASCII) framing: `minimalmodbus.MODE_ASCII`. -/
def MODE_ASCII : String := "ascii"

/-- SmartDisplay slave identifier (source line 64): `SLAVE_ADDRESS = 0x7B`. -/
def SLAVE_ADDRESS : Nat := 0x7B

/-- Serial timeout in seconds (source line 65): `TIMEOUT = 0.3`. -/
def TIMEOUT : ℚ := 3 / 10

/-- The minimum timeout documented in the comment on source line 65:
"At least 0.3 seconds required for 2400 bits/s ASCII mode". -/
def ASCII_2400_MIN_TIMEOUT : ℚ := 3 / 10

/-- Default serial port name (source line 68). -/
def DEFAULT_PORT_NAME : String := "/dev/ttyUSB0"

/-- Default baud rate (source line 70). -/
def DEFAULT_BAUDRATE : Int := 115200

/-- Temperature register address (source line 73): `TEMP_ADDRESS = 1 * 100 + 6`,
widget 1's Set Value register. -/
def TEMP_ADDRESS : Nat := 1 * 100 + 6

/-- Humidity register address (source line 74): `HUMIDITY_ADDRESS = 3 * 100 + 6`,
widget 3's Set Value register. -/
def HUMIDITY_ADDRESS : Nat := 3 * 100 + 6

/-- Duration of the inter-cycle delay (source line 127): `time.sleep(2.0)`. -/
def INTER_CYCLE_DELAY : ℚ := 2

/-- The classes of Python exception distinguished by the polling loop:
`RuntimeError` (the transient sensor-glitch class raised by adafruit_dht),
the minimalmodbus transport errors (timeout, CRC/LRC failure, slave exception
reply — subclasses of IOError, not of RuntimeError), and any other
`Exception`. -/
inductive Exc where
  | runtimeError
  | transportError
  | other
  deriving DecidableEq

/-- Whether the clause `except RuntimeError` (source line 123) catches the
exception. -/
def isRuntimeError : Exc → Bool
  | .runtimeError => true
  | _ => false

/-- One `write_register` invocation: the register address and the value sent. -/
abbrev RegWrite := Nat × Int

/-- Failure injection for the two `write_register` calls inside
`show_current_values`: `none` means the call returns normally, `some e` means
it raises `e`. -/
structure WriteOutcomes where
  tempWrite : Option Exc
  humWrite : Option Exc
  deriving DecidableEq

/-- `show_current_values` (source lines 76-78): issues the temperature write
and then the humidity write. Returns the sequence of write invocations
actually issued together with the exception, if any, that the step raises
(a raising call was still issued; a call after a raising one is never
reached). -/
def show_current_values (w : WriteOutcomes) (temp humidity : Int) :
    List RegWrite × Option Exc :=
  match w.tempWrite with
  | some e => ([(TEMP_ADDRESS, temp)], some e)
  | none =>
    match w.humWrite with
    | some e => ([(TEMP_ADDRESS, temp), (HUMIDITY_ADDRESS, humidity)], some e)
    | none => ([(TEMP_ADDRESS, temp), (HUMIDITY_ADDRESS, humidity)], none)

instance : DecidableEq (Except Exc Int) := fun a b =>
  match a, b with
  | .ok x, .ok y => decidable_of_iff (x = y) (by simp)
  | .error x, .error y => decidable_of_iff (x = y) (by simp)
  | .ok _, .error _ => isFalse (by simp)
  | .error _, .ok _ => isFalse (by simp)

/-- The environment one loop iteration runs in: the outcome of the two sensor
property reads (source lines 120-121) and of the two register writes reached
through `show_current_values` (source line 122). A fresh environment per
iteration models the statelessness of the external collaborators as the loop
sees them. -/
structure CycleEnv where
  tempRead : Except Exc Int
  humRead : Except Exc Int
  writes : WriteOutcomes
  deriving DecidableEq

/-- Outcome of one iteration of the while-loop body (source lines 118-127):
either the loop continues to the next iteration — recording the register
writes issued and whether `time.sleep(2.0)` on line 127 was executed — or an
exception propagates out of the loop, terminating the process. -/
inductive CycleResult where
  | continued (writes : List RegWrite) (slept : Bool)
  | raised (e : Exc) (writes : List RegWrite)
  deriving DecidableEq

/-- The two except clauses (source lines 123-126): `except RuntimeError:
continue`, which jumps straight to the next iteration and so skips the
`time.sleep(2.0)` on line 127, and `except Exception as error: raise error`,
which lets the exception propagate. -/
def exceptClauses (e : Exc) (ws : List RegWrite) : CycleResult :=
  if isRuntimeError e then .continued ws false else .raised e ws

/-- One iteration of the while-loop body (source lines 119-127): read
temperature, read humidity, publish both via `show_current_values`, handle any
exception with the two except clauses, and otherwise sleep. -/
def runCycle (env : CycleEnv) : CycleResult :=
  match env.tempRead with
  | .error e => exceptClauses e []
  | .ok temp =>
    match env.humRead with
    | .error e => exceptClauses e []
    | .ok humidity =>
      let r := show_current_values env.writes temp humidity
      match r.2 with
      | some e => exceptClauses e r.1
      | none => .continued r.1 true

/-- The exception, if any, that the try body (source lines 120-122) raises in
the given cycle environment: the first failing step among the two sensor reads
and the two register writes. -/
def cycleExc (env : CycleEnv) : Option Exc :=
  match env.tempRead with
  | .error e => some e
  | .ok temp =>
    match env.humRead with
    | .error e => some e
    | .ok humidity => (show_current_values env.writes temp humidity).2

/-- The register writes issued by the try body in the given cycle
environment: empty when a sensor read raises before `show_current_values` is
reached. -/
def cycleWrites (env : CycleEnv) : List RegWrite :=
  match env.tempRead with
  | .error _ => []
  | .ok temp =>
    match env.humRead with
    | .error _ => []
    | .ok humidity => (show_current_values env.writes temp humidity).1

/-- The `while True` loop (source line 118) run over a finite schedule of
cycle environments: one environment is consumed per iteration, and the run
stops early exactly when an iteration lets an exception propagate (the loop
itself has no other exit). -/
def runLoop : List CycleEnv → List CycleResult
  | [] => []
  | env :: rest =>
    match runCycle env with
    | .raised e ws => [.raised e ws]
    | .continued ws slept => .continued ws slept :: runLoop rest

/-- Outcome of `parse_commandline` when it does not return normally:
`usageExit msg` models the `print(msg)` to standard output followed by
`sys.exit()` (source lines 94-95 and 100-101); `valueError s` models the
uncaught `ValueError` that `int(s)` raises on a malformed suffix
(source line 96). -/
inductive ParseExit where
  | usageExit (msg : String)
  | valueError (s : String)
  deriving DecidableEq

/-- Python `str.startswith(pre)`, decided on the code-point lists (CPython
compares code points; defined structurally so that it computes). -/
def startswith (s pre : String) : Bool :=
  pre.data.isPrefixOf s.data

/-- Python `len(s)`: the number of code points of the string. -/
def strLen (s : String) : Nat :=
  s.data.length

/-- Python `s[n:]`: the string without its first `n` code points. -/
def dropChars (s : String) (n : Nat) : String :=
  ⟨s.data.drop n⟩

/-- Numeric value of a string of decimal digits. -/
def natOfDigits (cs : List Char) : Nat :=
  cs.foldl (fun n c => n * 10 + (c.toNat - 48)) 0

/-- Models Python `int(str)` on the baud-rate suffix: an optional sign
followed by one or more decimal digits; `none` where `int()` raises
`ValueError`. (Grouping underscores and surrounding whitespace, which Python
also accepts, are not modelled; no claim exercises them.) -/
def pyInt (s : String) : Option Int :=
  match s.data with
  | [] => none
  | c :: rest =>
    if c = '-' then
      if rest ≠ [] ∧ rest.all Char.isDigit then
        some (-(natOfDigits rest : Int))
      else none
    else if c = '+' then
      if rest ≠ [] ∧ rest.all Char.isDigit then
        some ((natOfDigits rest : Int))
      else none
    else if (c :: rest).all Char.isDigit then
      some ((natOfDigits (c :: rest) : Int))
    else none

/-- The for-loop of `parse_commandline` (source lines 85-102), processing the
remaining arguments given the current mode, baud rate and port name. -/
def parseArgs : List String → String → Int → String →
    Except ParseExit (String × String × Int)
  | [], mode, baudrate, portname => .ok (portname, mode, baudrate)
  | arg :: rest, mode, baudrate, portname =>
    if startswith arg "-ascii" then
      parseArgs rest MODE_ASCII baudrate portname
    else if startswith arg "-rtu" then
      parseArgs rest MODE_RTU baudrate portname
    else if startswith arg "-b" then
      if strLen arg < 3 then
        .error (.usageExit "Wrong usage of the -b option. Use -b9600")
      else
        match pyInt (dropChars arg 2) with
        | some n => parseArgs rest mode n portname
        | none => .error (.valueError (dropChars arg 2))
    else if startswith arg "-D" then
      if strLen arg < 3 then
        .error (.usageExit "Wrong usage of the -D option. Use -D/dev/ttyUSB0 or -DCOM4")
      else
        parseArgs rest mode baudrate (dropChars arg 2)
    else
      parseArgs rest mode baudrate portname

/-- `parse_commandline` (source lines 80-104): fold the argument list over the
defaults `MODE_RTU`, `DEFAULT_BAUDRATE`, `DEFAULT_PORT_NAME`, returning
`(portname, mode, baudrate)`. -/
def parse_commandline (argv : List String) :
    Except ParseExit (String × String × Int) :=
  parseArgs argv MODE_RTU DEFAULT_BAUDRATE DEFAULT_PORT_NAME

/-- The serial session as `main` configures it (source lines 110-115):
`Instrument(portname, SLAVE_ADDRESS, mode=mode)`, then
`inst.serial.timeout = TIMEOUT` and `inst.serial.baudrate = baudrate`. -/
structure Session where
  portname : String
  slaveId : Nat
  mode : String
  timeout : ℚ
  baudrate : Int
  deriving DecidableEq

/-- Session construction in `main` (source lines 110-115). -/
def makeSession (portname : String) (mode : String) (baudrate : Int) :
    Session :=
  ⟨portname, SLAVE_ADDRESS, mode, TIMEOUT, baudrate⟩

/-- The startup portion of `main` (source lines 107-115): parse the command
line and, when parsing returns, construct the session. On a usage exit or an
uncaught `ValueError` the error propagates and no session is ever
constructed. -/
def main_setup (argv : List String) : Except ParseExit Session :=
  match parse_commandline argv with
  | .error e => .error e
  | .ok (portname, mode, baudrate) => .ok (makeSession portname mode baudrate)

/-- The sensor read of a cycle raises the transient class: either the
temperature read raises `RuntimeError`, or the temperature read succeeds and
the humidity read raises `RuntimeError`. -/
def readRaisesTransient (env : CycleEnv) : Prop :=
  env.tempRead = .error .runtimeError ∨
    (∃ t, env.tempRead = .ok t ∧ env.humRead = .error .runtimeError)

/-- C1: in every cycle whose sensor read raises the transient error class
(`RuntimeError`), no register write is invoked (the iteration's write list is
empty), the loop does not terminate (the iteration yields `continued`, and the
run goes on to the remaining cycles), and no state is carried over: the rest
of the run is `runLoop rest`, a function of the later cycles' own environments
alone. -/
theorem C1_transient_read_skips_cycle (env : CycleEnv) (rest : List CycleEnv)
    (h : readRaisesTransient env) :
    runLoop (env :: rest) = .continued [] false :: runLoop rest := by
  rcases h with h | ⟨t, h1, h2⟩
  · simp [runLoop, runCycle, h, exceptClauses, isRuntimeError]
  · simp [runLoop, runCycle, h1, h2, exceptClauses, isRuntimeError]

theorem C1_transient_read_skips_cycle_witness :
    readRaisesTransient ⟨.error .runtimeError, .ok 0, ⟨none, none⟩⟩ ∧
    runLoop (⟨.error .runtimeError, .ok 0, ⟨none, none⟩⟩ ::
        [⟨.ok 21, .ok 55, ⟨none, none⟩⟩]) =
      .continued [] false :: runLoop [⟨.ok 21, .ok 55, ⟨none, none⟩⟩] :=
  ⟨Or.inl rfl, C1_transient_read_skips_cycle _ _ (Or.inl rfl)⟩

/-- C4: the temperature register address is `1 * 100 + 6 = 106` and the
humidity register address is `3 * 100 + 6 = 306`; both are closed constants
(source lines 73-74), and every write the publishing step ever issues uses
exactly these addresses — the temperature value always goes to
`TEMP_ADDRESS` and the humidity value to `HUMIDITY_ADDRESS`, whatever the
runtime values and write outcomes are. -/
theorem C4_fixed_register_addresses :
    TEMP_ADDRESS = 1 * 100 + 6 ∧ TEMP_ADDRESS = 106 ∧
    HUMIDITY_ADDRESS = 3 * 100 + 6 ∧ HUMIDITY_ADDRESS = 306 ∧
    ∀ (w : WriteOutcomes) (t h : Int),
      (show_current_values w t h).1 =
          [(TEMP_ADDRESS, t), (HUMIDITY_ADDRESS, h)] ∨
        (show_current_values w t h).1 = [(TEMP_ADDRESS, t)] := by
  refine ⟨rfl, rfl, rfl, rfl, ?_⟩
  intro w t h
  rcases w with ⟨tw, hw⟩
  cases tw <;> cases hw <;> simp [show_current_values]

/-- C5: a publishing step in which neither write fails issues exactly two
register writes, the temperature value to its fixed address first and then
the humidity value to its fixed address, and raises nothing. -/
theorem C5_publish_two_writes_temp_first (w : WriteOutcomes) (t h : Int)
    (h1 : w.tempWrite = none) (h2 : w.humWrite = none) :
    show_current_values w t h =
      ([(TEMP_ADDRESS, t), (HUMIDITY_ADDRESS, h)], none) := by
  cases w
  simp_all [show_current_values]

theorem C5_publish_two_writes_temp_first_witness :
    (⟨none, none⟩ : WriteOutcomes).tempWrite = none ∧
    (⟨none, none⟩ : WriteOutcomes).humWrite = none ∧
    show_current_values ⟨none, none⟩ 21 55 =
      ([(TEMP_ADDRESS, 21), (HUMIDITY_ADDRESS, 55)], none) :=
  ⟨rfl, rfl, C5_publish_two_writes_temp_first ⟨none, none⟩ 21 55 rfl rfl⟩

/-- C8: whatever framing mode and baud rate the command line selected, the
session `main` constructs always carries the single constant timeout
`TIMEOUT = 0.3` seconds, and `0.3` meets the minimum the source documents for
2400 bit/s ASCII mode. -/
theorem C8_timeout_constant (argv : List String) (s : Session)
    (h : main_setup argv = .ok s) :
    s.timeout = TIMEOUT ∧ TIMEOUT = 3 / 10 ∧
      ASCII_2400_MIN_TIMEOUT ≤ TIMEOUT := by
  refine ⟨?_, rfl, le_refl _⟩
  unfold main_setup at h
  cases hp : parse_commandline argv with
  | error e => rw [hp] at h; exact absurd h (by simp)
  | ok v =>
    obtain ⟨p, m, b⟩ := v
    rw [hp] at h
    simp only [Except.ok.injEq] at h
    subst h
    rfl

theorem C8_timeout_constant_witness :
    main_setup [] = .ok (makeSession DEFAULT_PORT_NAME MODE_RTU DEFAULT_BAUDRATE) ∧
    ((makeSession DEFAULT_PORT_NAME MODE_RTU DEFAULT_BAUDRATE).timeout = TIMEOUT ∧
      TIMEOUT = 3 / 10 ∧ ASCII_2400_MIN_TIMEOUT ≤ TIMEOUT) :=
  ⟨rfl, C8_timeout_constant [] _ rfl⟩

/-- C10: the `except RuntimeError` clause guards the whole try body, not just
the sensor reads: when both sensor reads succeed and a register write inside
`show_current_values` raises `RuntimeError`, the iteration is silently
absorbed (`continued`, not `raised`) and the loop goes on with the next
cycles — the silent-recovery scope is wider than the sampling step. -/
theorem C10_write_runtime_error_absorbed (env : CycleEnv) (rest : List CycleEnv)
    (t h : Int) (h1 : env.tempRead = .ok t) (h2 : env.humRead = .ok h)
    (h3 : (show_current_values env.writes t h).2 = some .runtimeError) :
    runLoop (env :: rest) =
      .continued (show_current_values env.writes t h).1 false :: runLoop rest := by
  have hc : runCycle env =
      .continued (show_current_values env.writes t h).1 false := by
    unfold runCycle
    rw [h1, h2]
    simp [h3, exceptClauses, isRuntimeError]
  simp [runLoop, hc]

theorem C10_write_runtime_error_absorbed_witness :
    (show_current_values (⟨some .runtimeError, none⟩ : WriteOutcomes) 21 55).2 =
      some .runtimeError ∧
    runLoop [⟨.ok 21, .ok 55, ⟨some .runtimeError, none⟩⟩] =
      .continued
          (show_current_values (⟨some .runtimeError, none⟩ : WriteOutcomes) 21 55).1
          false ::
        runLoop [] :=
  ⟨rfl, C10_write_runtime_error_absorbed _ [] 21 55 rfl rfl rfl⟩

/-- C2 counterexample: an iteration whose sensor read raises the transient
`RuntimeError` does continue the loop, yet does NOT execute `time.sleep(2.0)`:
`continue` on source line 124 jumps past line 127, so the iteration's record
is `slept = false` — refuting the claim that every non-terminating iteration
runs the 2.0-second inter-cycle delay. -/
theorem C2_transient_skips_sleep_counterexample :
    runCycle ⟨.error .runtimeError, .ok 0, ⟨none, none⟩⟩ =
        .continued [] false ∧
      CycleResult.continued ([] : List RegWrite) false ≠
        .continued ([] : List RegWrite) true :=
  ⟨rfl, by decide⟩

/-- C2 amended: the 2.0-second inter-cycle sleep is executed exactly on the
iterations whose try body completes without an exception (sampling and
publishing both succeeded); an iteration that fails with the transient class
skips the delay — `continue` bypasses `time.sleep(2.0)` — and the next
sampling attempt begins immediately. -/
theorem C2_sleep_iff_cycle_succeeds (env : CycleEnv) :
    ((∃ ws, runCycle env = .continued ws true) ↔ cycleExc env = none) ∧
    INTER_CYCLE_DELAY = 2 := by
  refine ⟨?_, rfl⟩
  unfold runCycle cycleExc
  cases h1 : env.tempRead with
  | error e => cases e <;> simp [exceptClauses, isRuntimeError]
  | ok t =>
    cases h2 : env.humRead with
    | error e => cases e <;> simp [exceptClauses, isRuntimeError]
    | ok hum =>
      cases h3 : (show_current_values env.writes t hum).2 with
      | none => simp [h3]
      | some e => cases e <;> simp [h3, exceptClauses, isRuntimeError]

/-- C3: an exception of the try body that is not a `RuntimeError` — in
particular a transport error raised by either register write during
publishing — is re-raised by `except Exception` (source lines 125-126): the
iteration ends `raised` and the loop processes no further cycles, so the
error propagates out of the loop and terminates the process. -/
theorem C3_nontransient_error_terminates (env : CycleEnv) (rest : List CycleEnv)
    (e : Exc) (he : cycleExc env = some e) (hne : isRuntimeError e = false) :
    runCycle env = .raised e (cycleWrites env) ∧
      runLoop (env :: rest) = [.raised e (cycleWrites env)] := by
  have hc : runCycle env = .raised e (cycleWrites env) := by
    unfold runCycle cycleWrites
    unfold cycleExc at he
    cases h1 : env.tempRead with
    | error e2 =>
      rw [h1] at he
      simp only [Option.some.injEq] at he
      subst he
      simp [exceptClauses, hne]
    | ok t =>
      rw [h1] at he
      cases h2 : env.humRead with
      | error e2 =>
        rw [h2] at he
        simp only [Option.some.injEq] at he
        subst he
        simp [exceptClauses, hne]
      | ok hum =>
        rw [h2] at he
        have he2 : (show_current_values env.writes t hum).2 = some e := he
        simp [he2, exceptClauses, hne]
  exact ⟨hc, by simp [runLoop, hc]⟩

theorem C3_nontransient_error_terminates_witness :
    cycleExc ⟨.ok 21, .ok 55, ⟨some .transportError, none⟩⟩ =
        some .transportError ∧
      isRuntimeError .transportError = false ∧
      (runCycle ⟨.ok 21, .ok 55, ⟨some .transportError, none⟩⟩ =
          .raised .transportError
            (cycleWrites ⟨.ok 21, .ok 55, ⟨some .transportError, none⟩⟩) ∧
        runLoop [⟨.ok 21, .ok 55, ⟨some .transportError, none⟩⟩] =
          [.raised .transportError
            (cycleWrites ⟨.ok 21, .ok 55, ⟨some .transportError, none⟩⟩)]) :=
  ⟨rfl, rfl, C3_nontransient_error_terminates _ [] _ rfl rfl⟩

/-- No argument of the list begins with any of the four recognized flags. -/
def noRecognizedFlag (argv : List String) : Prop :=
  ∀ a ∈ argv,
    startswith a "-ascii" = false ∧ startswith a "-rtu" = false ∧
      startswith a "-b" = false ∧ startswith a "-D" = false

lemma parseArgs_no_flags (argv : List String) (m : String) (b : Int)
    (p : String) (h : noRecognizedFlag argv) :
    parseArgs argv m b p = .ok (p, m, b) := by
  induction argv with
  | nil => rfl
  | cons a rest ih =>
    obtain ⟨⟨h1, h2, h3, h4⟩, hrest⟩ := List.forall_mem_cons.mp h
    simp [parseArgs, h1, h2, h3, h4, ih hrest]

/-- C6: when no recognized flag occurs in the argument list, parsing returns
the default port "/dev/ttyUSB0", RTU (binary) framing and baud rate 115200,
and `main` constructs the session with exactly those parameters and the fixed
slave identifier `0x7B`. -/
theorem C6_defaults_and_session (argv : List String)
    (h : noRecognizedFlag argv) :
    parse_commandline argv =
        .ok (DEFAULT_PORT_NAME, MODE_RTU, DEFAULT_BAUDRATE) ∧
      DEFAULT_PORT_NAME = "/dev/ttyUSB0" ∧ MODE_RTU = "rtu" ∧
      DEFAULT_BAUDRATE = 115200 ∧ SLAVE_ADDRESS = 0x7B ∧
      main_setup argv = .ok ⟨"/dev/ttyUSB0", 0x7B, "rtu", TIMEOUT, 115200⟩ := by
  have hp : parse_commandline argv =
      .ok (DEFAULT_PORT_NAME, MODE_RTU, DEFAULT_BAUDRATE) :=
    parseArgs_no_flags argv _ _ _ h
  refine ⟨hp, rfl, rfl, rfl, rfl, ?_⟩
  unfold main_setup
  rw [hp]
  rfl

theorem C6_defaults_and_session_witness :
    noRecognizedFlag ["prog.py"] ∧
    (parse_commandline ["prog.py"] =
        .ok (DEFAULT_PORT_NAME, MODE_RTU, DEFAULT_BAUDRATE) ∧
      DEFAULT_PORT_NAME = "/dev/ttyUSB0" ∧ MODE_RTU = "rtu" ∧
      DEFAULT_BAUDRATE = 115200 ∧ SLAVE_ADDRESS = 0x7B ∧
      main_setup ["prog.py"] =
        .ok ⟨"/dev/ttyUSB0", 0x7B, "rtu", TIMEOUT, 115200⟩) := by
  have h : noRecognizedFlag ["prog.py"] := by
    intro a ha
    simp only [List.mem_singleton] at ha
    subst ha
    exact ⟨rfl, rfl, rfl, rfl⟩
  exact ⟨h, C6_defaults_and_session ["prog.py"] h⟩

/-- C7: an argument that is exactly "-b" (so shorter than 3 characters)
makes parsing print the `-b` usage message to standard output and exit at
once — whatever arguments follow and whatever state was accumulated — and
likewise an argument that is exactly "-D"; in both cases `main_setup`
propagates the usage exit, so no serial session is ever constructed. -/
theorem C7_bare_flag_usage_exit (rest : List String) (m : String) (b : Int)
    (p : String) :
    parseArgs ("-b" :: rest) m b p =
        .error (.usageExit "Wrong usage of the -b option. Use -b9600") ∧
      parseArgs ("-D" :: rest) m b p =
        .error
          (.usageExit "Wrong usage of the -D option. Use -D/dev/ttyUSB0 or -DCOM4") ∧
      main_setup ("-b" :: rest) =
        .error (.usageExit "Wrong usage of the -b option. Use -b9600") ∧
      main_setup ("-D" :: rest) =
        .error
          (.usageExit "Wrong usage of the -D option. Use -D/dev/ttyUSB0 or -DCOM4") :=
  ⟨rfl, rfl, rfl, rfl⟩

/-- C9: an argument that extends "-b" to length at least 3 with a suffix that
is not a valid decimal integer does NOT take the guarded usage branch: the
guard only checks the length, so parsing ends with the uncaught `ValueError`
of `int()` on the suffix, which is a different outcome from every usage
exit. -/
theorem C9_malformed_baud_raises_valueerror (arg : String) (rest : List String)
    (m : String) (b : Int) (p : String)
    (ha : startswith arg "-ascii" = false) (hr : startswith arg "-rtu" = false)
    (hb : startswith arg "-b" = true) (hlen : ¬ strLen arg < 3)
    (hint : pyInt (dropChars arg 2) = none) :
    parseArgs (arg :: rest) m b p = .error (.valueError (dropChars arg 2)) ∧
      ∀ msg, (ParseExit.valueError (dropChars arg 2)) ≠ .usageExit msg := by
  refine ⟨?_, fun msg hmsg => by cases hmsg⟩
  simp [parseArgs, ha, hr, hb, hlen, hint]

theorem C9_malformed_baud_raises_valueerror_witness :
    startswith "-bfoo" "-ascii" = false ∧ startswith "-bfoo" "-rtu" = false ∧
      startswith "-bfoo" "-b" = true ∧ ¬ strLen "-bfoo" < 3 ∧
      pyInt (dropChars "-bfoo" 2) = none ∧
      (parseArgs ["-bfoo"] MODE_RTU DEFAULT_BAUDRATE DEFAULT_PORT_NAME =
          .error (.valueError (dropChars "-bfoo" 2)) ∧
        ∀ msg, (ParseExit.valueError (dropChars "-bfoo" 2)) ≠ .usageExit msg) :=
  ⟨rfl, rfl, rfl, by decide, rfl,
    C9_malformed_baud_raises_valueerror "-bfoo" [] _ _ _ rfl rfl rfl
      (by decide) rfl⟩

end TempHumidityMonitor
